import Mathlib

/-!
Verification of the market-making engine core: a shallow embedding of the
tick/quote/fill data model, the Avellaneda-Stoikov quote generator, the
position and P&L tracker, the EWMA volatility estimator, and the
risk-gate / fill-simulation quoting step, with theorems settling the
specification's claims against these definitions.

Doubles of the C++ source are modelled as real numbers (exact arithmetic);
every arithmetic identity claimed "within fp tolerance" is proved exactly.
-/

namespace mm

noncomputable section

/-- Market snapshot (include/MarketData.h, struct MarketTick): symbol,
best bid/ask, a quantity field and an annualized-volatility field. -/
structure MarketTick where
  symbol : String
  bid_price : ℝ
  ask_price : ℝ
  quantity : ℝ
  volatility : ℝ

/-- MarketTick::mid_price: arithmetic mean of bid and ask. -/
def MarketTick.mid_price (t : MarketTick) : ℝ :=
  (t.bid_price + t.ask_price) / 2

/-- Two-sided engine quote (struct Quote). The timestamp is dropped:
no claim mentions it. -/
structure Quote where
  symbol : String
  bid_price : ℝ
  ask_price : ℝ
  bid_size : ℝ
  ask_size : ℝ
  order_id : ℤ

/-- Quote::spread. -/
def Quote.spread (q : Quote) : ℝ := q.ask_price - q.bid_price

/-- Quote::mid_price. -/
def Quote.mid_price (q : Quote) : ℝ := (q.bid_price + q.ask_price) / 2

/-- Quote::is_valid: all four prices/sizes strictly positive. -/
def Quote.is_valid (q : Quote) : Prop :=
  q.bid_price > 0 ∧ q.ask_price > 0 ∧ q.bid_size > 0 ∧ q.ask_size > 0

instance (q : Quote) : Decidable q.is_valid := by
  unfold Quote.is_valid
  infer_instance

/-- A simulated fill (struct Fill). A negative fee stands for a maker
rebate. The timestamp is dropped: no claim mentions it. -/
structure Fill where
  symbol : String
  is_buy : Bool
  price : ℝ
  size : ℝ
  order_id : ℤ
  fees : ℝ

/-- Fill::is_buy_fill. -/
def Fill.is_buy_fill (f : Fill) : Bool := f.is_buy

/-- The Avellaneda-Stoikov engine's parameters (class AvellanedaStoikov).
The C++ object also stores gamma_sigma_sq_, log_constant_ and gamma_inv_;
the constructor and every setter recompute them from (gamma_, sigma_, T_,
kappa_) via update_precomputed_constants, so they are always the derived
values modelled below as functions. -/
structure AvellanedaStoikov where
  gamma_ : ℝ
  sigma_ : ℝ
  T_ : ℝ
  kappa_ : ℝ

/-- Precomputed constant gamma_sigma_sq_ = gamma_ * sigma_ * sigma_. -/
def AvellanedaStoikov.gamma_sigma_sq (e : AvellanedaStoikov) : ℝ :=
  e.gamma_ * e.sigma_ * e.sigma_

/-- Precomputed constant log_constant_ = log(1 + gamma_ / kappa_). -/
def AvellanedaStoikov.log_constant (e : AvellanedaStoikov) : ℝ :=
  Real.log (1 + e.gamma_ / e.kappa_)

/-- Precomputed constant gamma_inv_ = 2 / gamma_. -/
def AvellanedaStoikov.gamma_inv (e : AvellanedaStoikov) : ℝ :=
  2 / e.gamma_

/-- AvellanedaStoikov::calculate_reservation_price:
mid - inventory * gamma_sigma_sq_ * T_. -/
def AvellanedaStoikov.calculate_reservation_price (e : AvellanedaStoikov)
    (mid_price inventory : ℝ) : ℝ :=
  mid_price - inventory * e.gamma_sigma_sq * e.T_

/-- AvellanedaStoikov::calculate_optimal_spread: uses the tick's volatility
when positive, the stored sigma_ otherwise. -/
def AvellanedaStoikov.calculate_optimal_spread (e : AvellanedaStoikov)
    (_mid_price volatility _inventory : ℝ) : ℝ :=
  let vol := if volatility > 0 then volatility else e.sigma_
  e.gamma_ * vol * vol * e.T_ + e.gamma_inv * e.log_constant

/-- AvellanedaStoikov::calculate_quotes: reservation price from the stored
sigma_, spread from calculate_optimal_spread, unit sizes, order id 0. -/
def AvellanedaStoikov.calculate_quotes (e : AvellanedaStoikov)
    (tick : MarketTick) (inventory : ℝ) : Quote :=
  let mid_price := tick.mid_price
  let reservation_price := e.calculate_reservation_price mid_price inventory
  let optimal_spread := e.calculate_optimal_spread mid_price tick.volatility inventory
  { symbol := tick.symbol
    bid_price := reservation_price - optimal_spread / 2
    ask_price := reservation_price + optimal_spread / 2
    bid_size := 1
    ask_size := 1
    order_id := 0 }

/-- AvellanedaStoikov::calculate_quotes_batch: a length mismatch throws
std::invalid_argument (modelled as Except.error with the thrown message);
otherwise the per-index loop over calculate_quotes, which is zipWith. -/
def AvellanedaStoikov.calculate_quotes_batch (e : AvellanedaStoikov)
    (ticks : List MarketTick) (inventories : List ℝ) : Except String (List Quote) :=
  if ticks.length ≠ inventories.length then
    Except.error "Ticks and inventories must have same size"
  else
    Except.ok (List.zipWith e.calculate_quotes ticks inventories)

/-- Per-symbol position (include/Position.h, struct Position). -/
structure Position where
  symbol : String
  quantity : ℝ
  average_price : ℝ
  realized_pnl : ℝ
  unrealized_pnl : ℝ

/-- Position::update_position (src/core/Position.cpp): quantity moves by the
fill size; a fill on a flat book opens at the fill price; a same-side fill
re-averages; an opposite-side fill realizes P&L on the closed portion and,
only when it flips the sign, resets the average to the fill price. -/
def Position.update_position (p : Position) (fill : Fill) : Position :=
  let old_quantity := p.quantity
  let old_avg_price := p.average_price
  let quantity :=
    if fill.is_buy_fill then p.quantity + fill.size else p.quantity - fill.size
  if old_quantity = 0 then
    { p with quantity := quantity, average_price := fill.price }
  else if (old_quantity > 0 ∧ fill.is_buy_fill = true) ∨
          (old_quantity < 0 ∧ fill.is_buy_fill = false) then
    { p with quantity := quantity
             average_price :=
               (|old_quantity| * old_avg_price + fill.size * fill.price) / |quantity| }
  else
    let closed_size := min |old_quantity| fill.size
    let realized :=
      if old_quantity > 0 then
        p.realized_pnl + closed_size * (fill.price - old_avg_price)
      else
        p.realized_pnl + closed_size * (old_avg_price - fill.price)
    if |old_quantity| < fill.size then
      { p with quantity := quantity, average_price := fill.price,
               realized_pnl := realized }
    else
      { p with quantity := quantity, realized_pnl := realized }

/-- Position::update_unrealized_pnl: marks the open quantity to the given
price; zero when flat. -/
def Position.update_unrealized_pnl (p : Position) (current_price : ℝ) : Position :=
  if p.quantity > 0 then
    { p with unrealized_pnl := p.quantity * (current_price - p.average_price) }
  else if p.quantity < 0 then
    { p with unrealized_pnl := |p.quantity| * (p.average_price - current_price) }
  else
    { p with unrealized_pnl := 0 }

/-- Supported symbols (include/Symbol.h, enum class Symbol). -/
inductive Symbol where
  | BTC | ETH | SOL | BNB | UNKNOWN
deriving DecidableEq

/-- string_to_symbol (include/Symbol.h): full or short name, else UNKNOWN. -/
def string_to_symbol (s : String) : Symbol :=
  if s = "BTCUSDT" ∨ s = "BTC" then Symbol.BTC
  else if s = "ETHUSDT" ∨ s = "ETH" then Symbol.ETH
  else if s = "SOLUSDT" ∨ s = "SOL" then Symbol.SOL
  else if s = "BNBUSDT" ∨ s = "BNB" then Symbol.BNB
  else Symbol.UNKNOWN

/-- The four slots of the tracker's fixed positions_ array, in index order. -/
def tradedSymbols : List Symbol := [Symbol.BTC, Symbol.ETH, Symbol.SOL, Symbol.BNB]

/-- The array-backed P&L tracker (PnLTracker, src part_008): the fixed
positions_ array is modelled as a function on Symbol whose UNKNOWN slot is
never read or written (every operation returns early on UNKNOWN). -/
structure PnLTracker where
  positions_ : Symbol → Position
  realized_pnl_ : ℝ
  unrealized_pnl_ : ℝ

/-- PnLTracker's constructor: four flat positions, zero aggregates. The
UNKNOWN slot holds an inert flat position. -/
def PnLTracker.init : PnLTracker where
  positions_ := fun s =>
    match s with
    | Symbol.BTC => ⟨"BTCUSDT", 0, 0, 0, 0⟩
    | Symbol.ETH => ⟨"ETHUSDT", 0, 0, 0, 0⟩
    | Symbol.SOL => ⟨"SOLUSDT", 0, 0, 0, 0⟩
    | Symbol.BNB => ⟨"BNBUSDT", 0, 0, 0, 0⟩
    | Symbol.UNKNOWN => ⟨"", 0, 0, 0, 0⟩
  realized_pnl_ := 0
  unrealized_pnl_ := 0

/-- PnLTracker::update_fill: drop unknown symbols, apply the fill to the
symbol's slot, then recompute realized_pnl_ as the sum over the array. -/
def PnLTracker.update_fill (t : PnLTracker) (fill : Fill) : PnLTracker :=
  let sym := string_to_symbol fill.symbol
  if sym = Symbol.UNKNOWN then t
  else
    let positions := fun s =>
      if s = sym then (t.positions_ sym).update_position fill else t.positions_ s
    { t with positions_ := positions
             realized_pnl_ := (tradedSymbols.map fun s => (positions s).realized_pnl).sum }

/-- PnLTracker::update_market_price: drop unknown symbols, re-mark the
symbol's slot, then recompute unrealized_pnl_ as the sum over the array. -/
def PnLTracker.update_market_price (t : PnLTracker) (symbol : String) (price : ℝ) :
    PnLTracker :=
  let sym := string_to_symbol symbol
  if sym = Symbol.UNKNOWN then t
  else
    let positions := fun s =>
      if s = sym then (t.positions_ sym).update_unrealized_pnl price else t.positions_ s
    { t with positions_ := positions
             unrealized_pnl_ := (tradedSymbols.map fun s => (positions s).unrealized_pnl).sum }

/-- PnLTracker::get_position (string overload): an empty position for an
unknown symbol, else the slot's copy. -/
def PnLTracker.get_position (t : PnLTracker) (symbol : String) : Position :=
  let sym := string_to_symbol symbol
  if sym = Symbol.UNKNOWN then ⟨"", 0, 0, 0, 0⟩ else t.positions_ sym

/-- PnLTracker::get_total_pnl: realized_pnl_ + unrealized_pnl_. -/
def PnLTracker.get_total_pnl (t : PnLTracker) : ℝ :=
  t.realized_pnl_ + t.unrealized_pnl_

/-- EWMA volatility estimator (class EWMACalculator, src part_003). -/
structure EWMACalculator where
  alpha_ : ℝ
  current_vol_ : ℝ
  min_vol_ : ℝ
  ewma_variance_ : ℝ
  last_price_ : ℝ
  initialized_ : Bool

/-- EWMACalculator::update: the first call latches the price and sets the
flag; later calls fold the squared log return into the EWMA variance,
annualize by 252*24*60*60 one-second steps, floor at min_vol_, and latch
the price. The source applies no guard to non-positive prices. -/
def EWMACalculator.update (c : EWMACalculator) (price : ℝ) : EWMACalculator :=
  if c.initialized_ = false then
    { c with last_price_ := price, initialized_ := true }
  else
    let log_return := Real.log (price / c.last_price_)
    let variance := log_return * log_return
    let ewma_variance := c.alpha_ * variance + (1 - c.alpha_) * c.ewma_variance_
    let current_vol := Real.sqrt (ewma_variance * (252 * 24 * 60 * 60))
    { c with ewma_variance_ := ewma_variance
             current_vol_ := max current_vol c.min_vol_
             last_price_ := price }

/-- Risk-gate spread widening (callback_websocket, src part_003): when the
inventory ratio exceeds one half, widen the spread by the multiplier
1 + (ratio - 0.5) * max_spread_multiplier, moving bid down and ask up by
the same adjustment; otherwise the quote passes through unchanged. -/
def apply_inventory_widening (quote : Quote)
    (position_quantity max_inventory max_spread_multiplier : ℝ) : Quote :=
  let inventory_ratio := |position_quantity| / max_inventory
  if inventory_ratio > 0.5 then
    let spread_multiplier := 1 + (inventory_ratio - 0.5) * max_spread_multiplier
    let current_spread := quote.spread
    let new_spread := current_spread * spread_multiplier
    let spread_adjustment := (new_spread - current_spread) / 2
    { quote with bid_price := quote.bid_price - spread_adjustment
                 ask_price := quote.ask_price + spread_adjustment }
  else
    quote

/-- Bid-side passive-fill simulation (callback_websocket): a buy fill at the
engine's bid, size 0.01, fee the negated maker rebate, exactly when the bid
is within strict 0.1% of the public bid and the uniform draw is below 0.05. -/
def simulate_bid_fill (quote : Quote) (public_bid u : ℝ) : Option Fill :=
  if |quote.bid_price - public_bid| / public_bid < 0.001 ∧ u < 0.05 then
    some { symbol := quote.symbol, is_buy := true, price := quote.bid_price,
           size := 0.01, order_id := quote.order_id,
           fees := -(quote.bid_price * 0.01 * 0.0001) }
  else none

/-- Ask-side passive-fill simulation (callback_websocket): a sell fill at the
engine's ask, size 0.01, fee the negated maker rebate, exactly when the ask
is within strict 0.1% of the public ask and the uniform draw is above 0.95. -/
def simulate_ask_fill (quote : Quote) (public_ask u : ℝ) : Option Fill :=
  if |quote.ask_price - public_ask| / public_ask < 0.001 ∧ u > 0.95 then
    some { symbol := quote.symbol, is_buy := false, price := quote.ask_price,
           size := 0.01, order_id := quote.order_id,
           fees := -(quote.ask_price * 0.01 * 0.0001) }
  else none

/-- Both sides of the fill simulation on one quoting step: fills fire only
for a valid quote, and each side is decided from one shared uniform draw. -/
def simulate_fills (quote : Quote) (public_bid public_ask u : ℝ) :
    Option Fill × Option Fill :=
  if quote.is_valid then
    (simulate_bid_fill quote public_bid u, simulate_ask_fill quote public_ask u)
  else
    (none, none)

/-- Risk parameters of the trading loop (TradingData, src part_003):
max_inventory = 0.1, pnl_kill_switch = -10.0, max_spread_multiplier = 3.0
by default. -/
structure TradingParams where
  max_inventory : ℝ
  pnl_kill_switch : ℝ
  max_spread_multiplier : ℝ

/-- Mutable state of the trading loop that one quoting step touches. -/
structure StepState where
  pnl_tracker : PnLTracker
  should_stop : Bool
  quote_count : ℕ
  fill_count : ℕ

/-- One quoting step of callback_websocket (src part_003, every tenth tick),
in source order: read the position, check the kill switch (stop and break
before any quote or fill when total P&L is at or below the threshold),
generate the Avellaneda-Stoikov quote at the engine's live volatility,
apply inventory spread widening, and for a valid quote simulate at most one
passive fill per side from one uniform draw, apply them to the tracker and
re-mark unrealized P&L at the tick's mid. Returns the new state and the
fills generated on this step. -/
def quoting_step (engine : AvellanedaStoikov) (params : TradingParams)
    (st : StepState) (symbol : String) (bid ask u : ℝ) : StepState × List Fill :=
  let mid_price := (bid + ask) / 2
  let tick : MarketTick := ⟨symbol, bid, ask, 0, engine.sigma_⟩
  let position := st.pnl_tracker.get_position symbol
  let current_pnl := st.pnl_tracker.get_total_pnl
  if current_pnl ≤ params.pnl_kill_switch then
    ({ st with should_stop := true }, [])
  else
    let quote0 := engine.calculate_quotes tick position.quantity
    let quote := apply_inventory_widening quote0 position.quantity
      params.max_inventory params.max_spread_multiplier
    if quote.is_valid then
      let fills := (simulate_fills quote bid ask u).1.toList ++
                   (simulate_fills quote bid ask u).2.toList
      let tracker1 := fills.foldl PnLTracker.update_fill st.pnl_tracker
      let tracker2 := tracker1.update_market_price symbol mid_price
      ({ st with pnl_tracker := tracker2
                 quote_count := st.quote_count + 1
                 fill_count := st.fill_count + fills.length }, fills)
    else
      (st, [])

/-- C1: for every quote produced by calculate_quotes from parameters
(gamma, sigma, T, kappa), inventory q and a tick with the tick's volatility
field equal to the engine's sigma, the quote satisfies
ask - bid = gamma sigma^2 T + (2/gamma) ln(1 + gamma/kappa), and the
midpoint (bid + ask)/2 equals the reservation price m - q gamma sigma^2 T
with m the tick's mid. -/
theorem C1_quote_spread_and_midpoint (e : AvellanedaStoikov) (tick : MarketTick)
    (q : ℝ) (h : tick.volatility = e.sigma_) :
    (e.calculate_quotes tick q).ask_price - (e.calculate_quotes tick q).bid_price
      = e.gamma_ * e.sigma_ ^ 2 * e.T_
        + 2 / e.gamma_ * Real.log (1 + e.gamma_ / e.kappa_)
    ∧ ((e.calculate_quotes tick q).bid_price + (e.calculate_quotes tick q).ask_price) / 2
      = tick.mid_price - q * e.gamma_ * e.sigma_ ^ 2 * e.T_ := by
  unfold AvellanedaStoikov.calculate_quotes AvellanedaStoikov.calculate_optimal_spread
    AvellanedaStoikov.calculate_reservation_price AvellanedaStoikov.gamma_sigma_sq
    AvellanedaStoikov.gamma_inv AvellanedaStoikov.log_constant
  simp only [h]
  constructor
  · split_ifs <;> ring
  · split_ifs <;> ring

/-- Engine used in concrete instantiations of the quote-math claims. -/
def c1engine : AvellanedaStoikov := ⟨0.1, 0.05, 60, 1.5⟩

/-- Tick whose volatility field equals c1engine's stored sigma. -/
def c1tick : MarketTick := ⟨"BTCUSDT", 100, 101, 0, 0.05⟩

/-- Witness for C1 at the concrete engine, tick and inventory 2. -/
theorem C1_witness :
    c1tick.volatility = c1engine.sigma_
    ∧ ((c1engine.calculate_quotes c1tick 2).ask_price
          - (c1engine.calculate_quotes c1tick 2).bid_price
        = c1engine.gamma_ * c1engine.sigma_ ^ 2 * c1engine.T_
          + 2 / c1engine.gamma_ * Real.log (1 + c1engine.gamma_ / c1engine.kappa_)
      ∧ ((c1engine.calculate_quotes c1tick 2).bid_price
            + (c1engine.calculate_quotes c1tick 2).ask_price) / 2
        = c1tick.mid_price - 2 * c1engine.gamma_ * c1engine.sigma_ ^ 2 * c1engine.T_) :=
  ⟨rfl, C1_quote_spread_and_midpoint c1engine c1tick 2 rfl⟩

/-- C10: calculate_quotes always computes the reservation price (and hence
the quote midpoint) from the engine's stored sigma, while the spread uses
the tick's volatility field whenever it is positive: for a tick whose
positive volatility differs from the stored sigma, the midpoint is
m - q gamma sigma_stored^2 T and the spread is
gamma sigma_tick^2 T + (2/gamma) ln(1 + gamma/kappa), mixing the two
volatilities in one quote. -/
theorem C10_mixed_volatilities (e : AvellanedaStoikov) (tick : MarketTick)
    (q : ℝ) (hpos : 0 < tick.volatility) (_hne : tick.volatility ≠ e.sigma_) :
    ((e.calculate_quotes tick q).bid_price + (e.calculate_quotes tick q).ask_price) / 2
      = tick.mid_price - q * e.gamma_ * e.sigma_ ^ 2 * e.T_
    ∧ (e.calculate_quotes tick q).ask_price - (e.calculate_quotes tick q).bid_price
      = e.gamma_ * tick.volatility ^ 2 * e.T_
        + 2 / e.gamma_ * Real.log (1 + e.gamma_ / e.kappa_) := by
  unfold AvellanedaStoikov.calculate_quotes AvellanedaStoikov.calculate_optimal_spread
    AvellanedaStoikov.calculate_reservation_price AvellanedaStoikov.gamma_sigma_sq
    AvellanedaStoikov.gamma_inv AvellanedaStoikov.log_constant
  rw [if_pos hpos]
  constructor <;> ring

/-- Tick whose positive volatility 0.1 differs from c1engine's sigma 0.05. -/
def c10tick : MarketTick := ⟨"BTCUSDT", 100, 101, 0, 0.1⟩

/-- Witness for C10 at the concrete engine, tick and inventory 2. -/
theorem C10_witness :
    (0 < c10tick.volatility ∧ c10tick.volatility ≠ c1engine.sigma_)
    ∧ (((c1engine.calculate_quotes c10tick 2).bid_price
          + (c1engine.calculate_quotes c10tick 2).ask_price) / 2
        = c10tick.mid_price - 2 * c1engine.gamma_ * c1engine.sigma_ ^ 2 * c1engine.T_
      ∧ (c1engine.calculate_quotes c10tick 2).ask_price
          - (c1engine.calculate_quotes c10tick 2).bid_price
        = c1engine.gamma_ * c10tick.volatility ^ 2 * c1engine.T_
          + 2 / c1engine.gamma_ * Real.log (1 + c1engine.gamma_ / c1engine.kappa_)) :=
  ⟨⟨by norm_num [c10tick], by norm_num [c10tick, c1engine]⟩,
   C10_mixed_volatilities c1engine c10tick 2 (by norm_num [c10tick])
     (by norm_num [c10tick, c1engine])⟩

/-- C6: for inventory ratio rho = |q| / q_max above one half, the risk gate
multiplies the quote's spread by exactly 1 + (rho - 0.5) * M, lowering the
bid and raising the ask symmetrically so the quote's midpoint is unchanged;
for rho at or below one half the quote passes through unchanged. -/
theorem C6_inventory_widening (quote : Quote) (q qmax M : ℝ) :
    (|q| / qmax > 0.5 →
        (apply_inventory_widening quote q qmax M).spread
            = quote.spread * (1 + (|q| / qmax - 0.5) * M)
          ∧ (apply_inventory_widening quote q qmax M).mid_price = quote.mid_price)
    ∧ (|q| / qmax ≤ 0.5 → apply_inventory_widening quote q qmax M = quote) := by
  unfold apply_inventory_widening
  constructor
  · intro h
    rw [if_pos h]
    unfold Quote.spread Quote.mid_price
    constructor <;> ring
  · intro h
    rw [if_neg (not_lt.mpr h)]

/-- C8: calculate_quotes_batch on parallel vectors of equal length n returns
the vector of the n per-tick quotes, its i-th element calculate_quotes of
the i-th tick and i-th inventory; a length mismatch is reported as the
invalid-argument failure; empty input returns an empty result. -/
theorem C8_batch_refines_single (e : AvellanedaStoikov)
    (ticks : List MarketTick) (invs : List ℝ) :
    (ticks.length = invs.length →
        e.calculate_quotes_batch ticks invs
            = Except.ok (List.zipWith e.calculate_quotes ticks invs)
          ∧ (List.zipWith e.calculate_quotes ticks invs).length = ticks.length
          ∧ ∀ (i : ℕ) (t : MarketTick) (v : ℝ),
              ticks[i]? = some t → invs[i]? = some v →
              (List.zipWith e.calculate_quotes ticks invs)[i]?
                = some (e.calculate_quotes t v))
    ∧ (ticks.length ≠ invs.length →
        e.calculate_quotes_batch ticks invs
          = Except.error "Ticks and inventories must have same size")
    ∧ e.calculate_quotes_batch [] [] = Except.ok [] := by
  refine ⟨fun h => ⟨?_, ?_, ?_⟩, fun h => ?_, ?_⟩
  · unfold AvellanedaStoikov.calculate_quotes_batch
    rw [if_neg (by simpa using h)]
  · rw [List.length_zipWith, h, min_self]
  · intro i t v ht hv
    exact List.getElem?_zipWith_eq_some.mpr ⟨t, v, ht, hv, rfl⟩
  · unfold AvellanedaStoikov.calculate_quotes_batch
    rw [if_pos h]
  · unfold AvellanedaStoikov.calculate_quotes_batch
    simp

/-- C2: an opposite-side fill of size at most the open quantity (a reducing
fill that does not flip) leaves average_price unchanged and adds exactly
c * (price - a0) to realized_pnl on a long, c * (a0 - price) on a short,
with c = min(|q0|, size). -/
theorem C2_reducing_fill_pnl (p : Position) (f : Fill)
    (hq : p.quantity ≠ 0)
    (hopp : (0 < p.quantity ∧ f.is_buy = false) ∨ (p.quantity < 0 ∧ f.is_buy = true))
    (hs : f.size ≤ |p.quantity|) :
    (p.update_position f).average_price = p.average_price
    ∧ (p.update_position f).realized_pnl
        = p.realized_pnl
          + (if 0 < p.quantity
             then min |p.quantity| f.size * (f.price - p.average_price)
             else min |p.quantity| f.size * (p.average_price - f.price)) := by
  unfold Position.update_position Fill.is_buy_fill
  rw [if_neg hq]
  have hside : ¬ ((p.quantity > 0 ∧ f.is_buy = true) ∨
      (p.quantity < 0 ∧ f.is_buy = false)) := by
    rcases hopp with ⟨h1, h2⟩ | ⟨h1, h2⟩ <;>
      rintro (⟨g1, g2⟩ | ⟨g1, g2⟩) <;> simp_all <;> linarith
  rw [if_neg hside, if_neg (not_lt.mpr hs)]
  refine ⟨rfl, ?_⟩
  show (if p.quantity > 0 then _ else _) = _
  split_ifs <;> ring

/-- Concrete long position for C2's witness: 2 units at average 100 with
accumulated realized P&L 5. -/
def c2pos : Position := ⟨"BTCUSDT", 2, 100, 5, 0⟩

/-- Concrete reducing sell fill for C2's witness: sell 1 at 110, no fee. -/
def c2fill : Fill := ⟨"BTCUSDT", false, 110, 1, 0, 0⟩

/-- Witness for C2 at the concrete position and fill. -/
theorem C2_witness :
    c2pos.quantity ≠ 0
    ∧ ((0 < c2pos.quantity ∧ c2fill.is_buy = false)
        ∨ (c2pos.quantity < 0 ∧ c2fill.is_buy = true))
    ∧ c2fill.size ≤ |c2pos.quantity|
    ∧ ((c2pos.update_position c2fill).average_price = c2pos.average_price
       ∧ (c2pos.update_position c2fill).realized_pnl
           = c2pos.realized_pnl
             + (if 0 < c2pos.quantity
                then min |c2pos.quantity| c2fill.size * (c2fill.price - c2pos.average_price)
                else min |c2pos.quantity| c2fill.size * (c2pos.average_price - c2fill.price))) :=
  ⟨by norm_num [c2pos],
   Or.inl ⟨by norm_num [c2pos], rfl⟩,
   by rw [show c2pos.quantity = 2 from rfl, show c2fill.size = 1 from rfl]; norm_num
   , C2_reducing_fill_pnl c2pos c2fill (by norm_num [c2pos])
      (Or.inl ⟨by norm_num [c2pos], rfl⟩)
      (by rw [show c2pos.quantity = 2 from rfl, show c2fill.size = 1 from rfl]; norm_num)⟩

/-- Opening buy fill carrying a maker rebate (fee -1), used to exhibit that
the fee field never reaches realized P&L. -/
def c3fill : Fill := ⟨"BTCUSDT", true, 100, 1, 0, -1⟩

/-- Counterexample to C3: processing a fill with fee -1 (a rebate of
magnitude 1) through PnLTracker::update_fill does not increase the
tracker's realized P&L by 1 - the fee field is never applied. -/
theorem C3_counterexample :
    (PnLTracker.init.update_fill c3fill).realized_pnl_
      ≠ PnLTracker.init.realized_pnl_ + 1 := by
  have d1 : Symbol.BTC ≠ Symbol.UNKNOWN := by decide
  have d2 : Symbol.ETH ≠ Symbol.BTC := by decide
  have d3 : Symbol.SOL ≠ Symbol.BTC := by decide
  have d4 : Symbol.BNB ≠ Symbol.BTC := by decide
  unfold PnLTracker.update_fill PnLTracker.init string_to_symbol c3fill
    Position.update_position Fill.is_buy_fill tradedSymbols
  norm_num [d1, d2, d3, d4]

/-- C3 amended: the fill's fee field is never applied to P&L: update_fill
produces an identical tracker whatever value the fee field holds, so a
maker rebate (negative fee) has no effect on realized P&L. -/
theorem C3_amended_fee_ignored (t : PnLTracker) (f : Fill) (c : ℝ) :
    t.update_fill { f with fees := c } = t.update_fill f := rfl

/-- The Position data-model invariant: average price is zero exactly when
the position is flat. -/
def posInvariant (p : Position) : Prop :=
  p.average_price = 0 ↔ p.quantity = 0

/-- Long position of 1 unit at average 100, as produced by an opening buy
fill of 1 at 100 on a flat book. -/
def c9pos : Position := ⟨"BTCUSDT", 1, 100, 0, 0⟩

/-- Sell fill of exactly the open quantity at 100: a full close. -/
def c9fill : Fill := ⟨"BTCUSDT", false, 100, 1, 0, 0⟩

/-- Counterexample to C9: a full close (sell 1 against a long of 1) drives
quantity to zero but leaves average_price at 100, so the invariant
avg_price = 0 iff qty = 0 is not preserved by update_position. -/
theorem C9_counterexample :
    ¬ posInvariant (c9pos.update_position c9fill) := by
  unfold posInvariant Position.update_position Fill.is_buy_fill c9pos c9fill
  norm_num

/-- C9 amended: the invariant avg_price = 0 iff qty = 0 holds for every
slot of the tracker's initial position table, and for a position satisfying
it with nonnegative average price, a fill with positive price and size
preserves it exactly when the resulting quantity is nonzero: opening,
extending, partial-reduce and flipping fills preserve it, while an exact
full close leaves average_price at its old nonzero value with quantity
zero, violating it. -/
theorem C9_invariant_characterization (p : Position) (f : Fill)
    (hp : posInvariant p) (ha : 0 ≤ p.average_price)
    (hprice : 0 < f.price) (hsize : 0 < f.size) :
    (∀ s, posInvariant (PnLTracker.init.positions_ s))
    ∧ (posInvariant (p.update_position f) ↔ (p.update_position f).quantity ≠ 0) := by
  constructor
  · intro s
    cases s <;> simp [PnLTracker.init, posInvariant]
  · have havg0 : p.average_price = 0 ↔ p.quantity = 0 := hp
    unfold posInvariant Position.update_position Fill.is_buy_fill
    by_cases h0 : p.quantity = 0
    · rw [if_pos h0]
      cases hb : f.is_buy <;>
        simp [h0, hb, hprice.ne', hsize.ne']
    · rw [if_neg h0]
      have hane : p.average_price ≠ 0 := fun h => h0 (havg0.mp h)
      have hapos : 0 < p.average_price := lt_of_le_of_ne ha (Ne.symm hane)
      by_cases hside : (p.quantity > 0 ∧ f.is_buy = true) ∨
          (p.quantity < 0 ∧ f.is_buy = false)
      · rw [if_pos hside]
        rcases hside with ⟨hq, hb⟩ | ⟨hq, hb⟩
        · have hqb : 0 < p.quantity + f.size := by linarith
          have habs : |p.quantity| = p.quantity := abs_of_pos hq
          have hnum : 0 < p.quantity * p.average_price + f.size * f.price :=
            add_pos (mul_pos hq hapos) (mul_pos hsize hprice)
          have havg' : 0 < (|p.quantity| * p.average_price + f.size * f.price)
              / |p.quantity + f.size| := by
            rw [habs]
            exact div_pos hnum (abs_pos.mpr hqb.ne')
          simp [hb, havg'.ne', hqb.ne']
        · have hqb : p.quantity - f.size < 0 := by linarith
          have habs : |p.quantity| = -p.quantity := abs_of_neg hq
          have hnum : 0 < -p.quantity * p.average_price + f.size * f.price :=
            add_pos (mul_pos (by linarith) hapos) (mul_pos hsize hprice)
          have havg' : 0 < (|p.quantity| * p.average_price + f.size * f.price)
              / |p.quantity - f.size| := by
            rw [habs]
            exact div_pos hnum (abs_pos.mpr hqb.ne)
          simp [hb, havg'.ne', hqb.ne]
      · rw [if_neg hside]
        by_cases hflip : |p.quantity| < f.size
        · rw [if_pos hflip]
          cases hb : f.is_buy
          · have hq : 0 < p.quantity := by
              rcases lt_trichotomy p.quantity 0 with h | h | h
              · exact absurd (Or.inr ⟨h, hb⟩) hside
              · exact absurd h h0
              · exact h
            have hqb : p.quantity - f.size < 0 := by
              rw [abs_of_pos hq] at hflip; linarith
            simp [hb, hprice.ne', hqb.ne]
          · have hq : p.quantity < 0 := by
              rcases lt_trichotomy p.quantity 0 with h | h | h
              · exact h
              · exact absurd h h0
              · exact absurd (Or.inl ⟨h, hb⟩) hside
            have hqb : 0 < p.quantity + f.size := by
              rw [abs_of_neg hq] at hflip; linarith
            simp [hb, hprice.ne', hqb.ne']
        · rw [if_neg hflip]
          cases hb : f.is_buy <;> simp [hb, hane]

/-- Witness for the amended C9 at a concrete partial-reduce fill: sell 1
against a long of 2 at average 100; the invariant survives and the
resulting quantity is nonzero. -/
theorem C9_witness :
    (posInvariant c2pos ∧ 0 ≤ c2pos.average_price
      ∧ 0 < c2fill.price ∧ 0 < c2fill.size)
    ∧ ((∀ s, posInvariant (PnLTracker.init.positions_ s))
       ∧ (posInvariant (c2pos.update_position c2fill)
            ↔ (c2pos.update_position c2fill).quantity ≠ 0)) :=
  ⟨⟨by unfold posInvariant; norm_num [c2pos], by norm_num [c2pos],
    by norm_num [c2fill], by norm_num [c2fill]⟩,
   C9_invariant_characterization c2pos c2fill
     (by unfold posInvariant; norm_num [c2pos]) (by norm_num [c2pos])
     (by norm_num [c2fill]) (by norm_num [c2fill])⟩

/-- Counterexample to C4: both sides are decided from the one shared
uniform draw, and u < 0.05 and u > 0.95 exclude each other, so a bid fill
and an ask fill can never fire on the same quoting step. -/
theorem C4_counterexample :
    ¬ ∃ (quote : Quote) (pb pa u : ℝ),
        (simulate_fills quote pb pa u).1.isSome = true
        ∧ (simulate_fills quote pb pa u).2.isSome = true := by
  rintro ⟨q, pb, pa, u, h1, h2⟩
  unfold simulate_fills at h1 h2
  split_ifs at h1 h2 with hv
  · unfold simulate_bid_fill at h1
    unfold simulate_ask_fill at h2
    split_ifs at h1 with hb
    · split_ifs at h2 with ha
      · linarith [hb.2, ha.2]
      · simp at h2
    · simp at h1
  · simp at h1

/-- C4 amended: for every valid engine quote, a bid fill occurs exactly
when the bid is strictly within relative distance 0.001 of the public bid
and u < 0.05, an ask fill exactly when the ask side is competitive under
the same strict threshold and u > 0.95; and the two can never fire on the
same step because both read the one shared draw. -/
theorem C4_fill_characterization (quote : Quote) (pb pa u : ℝ)
    (hv : quote.is_valid) :
    ((simulate_fills quote pb pa u).1.isSome = true
        ↔ (|quote.bid_price - pb| / pb < 0.001 ∧ u < 0.05))
    ∧ ((simulate_fills quote pb pa u).2.isSome = true
        ↔ (|quote.ask_price - pa| / pa < 0.001 ∧ u > 0.95))
    ∧ ¬ ((simulate_fills quote pb pa u).1.isSome = true
         ∧ (simulate_fills quote pb pa u).2.isSome = true) := by
  unfold simulate_fills simulate_bid_fill simulate_ask_fill
  rw [if_pos hv]
  dsimp only
  refine ⟨?_, ?_, ?_⟩
  · split_ifs with hb <;> simp [hb]
  · split_ifs with ha <;> simp [ha]
  · rintro ⟨h1, h2⟩
    split_ifs at h1 h2 with hb ha
    · linarith [hb.2, ha.2]
    · simp at h2
    · simp at h1
    · simp at h1

/-- Valid engine quote used in the C4 witness. -/
def c4quote : Quote := ⟨"BTCUSDT", 100, 101, 1, 1, 0⟩

/-- Witness for the amended C4 at a concrete valid quote, public book
(100, 101) and draw 0.5. -/
theorem C4_witness :
    c4quote.is_valid
    ∧ (((simulate_fills c4quote 100 101 0.5).1.isSome = true
          ↔ (|c4quote.bid_price - 100| / 100 < 0.001 ∧ (0.5 : ℝ) < 0.05))
       ∧ ((simulate_fills c4quote 100 101 0.5).2.isSome = true
          ↔ (|c4quote.ask_price - 101| / 101 < 0.001 ∧ (0.5 : ℝ) > 0.95))
       ∧ ¬ ((simulate_fills c4quote 100 101 0.5).1.isSome = true
            ∧ (simulate_fills c4quote 100 101 0.5).2.isSome = true)) :=
  ⟨⟨by norm_num [c4quote], by norm_num [c4quote], by norm_num [c4quote],
    by norm_num [c4quote]⟩,
   C4_fill_characterization c4quote 100 101 0.5
     ⟨by norm_num [c4quote], by norm_num [c4quote], by norm_num [c4quote],
      by norm_num [c4quote]⟩⟩

/-- C5: on a quoting step whose starting cumulative total P&L is at or
below the kill-switch threshold, the step signals stop and generates no
fill: the kill-switch check runs strictly before fill generation, and the
tracker, quote count and fill count are untouched. -/
theorem C5_kill_switch_stops_before_fills (engine : AvellanedaStoikov)
    (params : TradingParams) (st : StepState) (symbol : String) (bid ask u : ℝ)
    (h : st.pnl_tracker.get_total_pnl ≤ params.pnl_kill_switch) :
    (quoting_step engine params st symbol bid ask u).1.should_stop = true
    ∧ (quoting_step engine params st symbol bid ask u).2 = []
    ∧ (quoting_step engine params st symbol bid ask u).1.pnl_tracker = st.pnl_tracker
    ∧ (quoting_step engine params st symbol bid ask u).1.fill_count = st.fill_count := by
  unfold quoting_step
  rw [if_pos h]
  exact ⟨rfl, rfl, rfl, rfl⟩

/-- Tracker whose realized P&L -20 breaches the -10 kill switch. -/
def c5tracker : PnLTracker := { PnLTracker.init with realized_pnl_ := -20 }

/-- Loop state holding c5tracker before the quoting step. -/
def c5state : StepState := ⟨c5tracker, false, 0, 0⟩

/-- Default risk parameters of the trading loop. -/
def c5params : TradingParams := ⟨0.1, -10, 3⟩

/-- Witness for C5: with total P&L -20 against threshold -10, the step at
public book (100, 101) and draw 0.5 stops and produces nothing. -/
theorem C5_witness :
    c5state.pnl_tracker.get_total_pnl ≤ c5params.pnl_kill_switch
    ∧ ((quoting_step c1engine c5params c5state "BTCUSDT" 100 101 0.5).1.should_stop = true
       ∧ (quoting_step c1engine c5params c5state "BTCUSDT" 100 101 0.5).2 = []
       ∧ (quoting_step c1engine c5params c5state "BTCUSDT" 100 101 0.5).1.pnl_tracker
           = c5state.pnl_tracker
       ∧ (quoting_step c1engine c5params c5state "BTCUSDT" 100 101 0.5).1.fill_count
           = c5state.fill_count) :=
  ⟨by norm_num [c5state, c5tracker, c5params, PnLTracker.get_total_pnl, PnLTracker.init],
   C5_kill_switch_stops_before_fills c1engine c5params c5state "BTCUSDT" 100 101 0.5
     (by norm_num [c5state, c5tracker, c5params, PnLTracker.get_total_pnl, PnLTracker.init])⟩

/-- Fresh estimator state (alpha 0.15, initial vol 0.05, floor 0.02, the
uninitialized variance and last price taken as zero). -/
def c7calc : EWMACalculator := ⟨0.15, 0.05, 0.02, 0, 0, false⟩

/-- Counterexample to C7: feeding the non-positive price -1 to the
estimator's update is not skipped - it advances the state (the initialized
flag flips to true and the price is latched). -/
theorem C7_counterexample : c7calc.update (-1) ≠ c7calc := by
  intro h
  have h2 := congrArg EWMACalculator.initialized_ h
  simp [EWMACalculator.update, c7calc] at h2

/-- C7 amended: non-positive prices are not treated specially: the very
first update, for any price (non-positive included), only latches the
price and sets the initialized flag, and emits no variance update - the
EWMA variance, current volatility, floor and alpha are unchanged. -/
theorem C7_first_update_latches (c : EWMACalculator) (p : ℝ)
    (h : c.initialized_ = false) :
    c.update p = { c with last_price_ := p, initialized_ := true } := by
  unfold EWMACalculator.update
  rw [if_pos h]

/-- Witness for the amended C7: the fresh estimator updated with price 5
latches 5 and flips only the flag. -/
theorem C7_witness :
    c7calc.initialized_ = false
    ∧ c7calc.update 5 = { c7calc with last_price_ := 5, initialized_ := true } :=
  ⟨rfl, C7_first_update_latches c7calc 5 rfl⟩

end

end mm
